import Mathlib

/-!
Shallow embedding of the AutoAgent workflow execution engine
(`app/services/enhanced_workflow_executor.py`), the capability registry
(`app/tools/tool_registry.py`), the authorization gate and chat entry point
(`app/services/telegram_bot.py`), the workflow store adapter
(`app/services/firestore_db.py`) and the Gmail capability
(`app/tools/gmail_tools.py`, `app/tools/base_tool.py`).

Python task dictionaries become records of optional strings; the external
world (granted OAuth scopes, store write outcomes, capability invocation
outcomes) is an explicit environment; the engine's observable side effects
(progress-notifier calls, capability invocations, status writes, execution
log appends) are recorded in an event trace.
-/

namespace AutoAgent

/-- Single-quote character, used to build embedded Python error strings. -/
def sq : String := String.singleton (Char.ofNat 39)

/-- Whitespace characters recognised by Python `str.strip` / `str.split`. -/
def isSpaceChar (c : Char) : Bool := c = ' ' || c = '\t' || c = '\n' || c = '\r'

/-- Python `str.strip()`. -/
def stripStr (s : String) : String :=
  String.mk (((s.toList.dropWhile isSpaceChar).reverse.dropWhile isSpaceChar).reverse)

/-- Helper for `splitWords`: accumulates the current word (reversed). -/
def splitWordsAux : List Char → List Char → List String
  | [], cur => if cur.isEmpty then [] else [String.mk cur.reverse]
  | c :: cs, cur =>
    if isSpaceChar c then
      if cur.isEmpty then splitWordsAux cs []
      else String.mk cur.reverse :: splitWordsAux cs []
    else splitWordsAux cs (c :: cur)

/-- Python `str.split()` with no argument: split on runs of whitespace. Used
for the space-separated OAuth scope strings. -/
def splitWords (s : String) : List String := splitWordsAux s.toList []

/-- Python `sep.join(xs)`. -/
def joinWith (sep : String) : List String → String
  | [] => ""
  | [x] => x
  | x :: y :: ys => x ++ sep ++ joinWith sep (y :: ys)

/-- Order-preserving de-duplication: the `seen`-set loop of
`_validate_email_tasks`. -/
def dedupKeepFirst (l : List String) : List String :=
  l.foldl (fun acc x => if x ∈ acc then acc else acc ++ [x]) []

/-- Character-list matching used by `containsSub`. -/
def leadsWith : List Char → List Char → Bool
  | [], _ => true
  | _ :: _, [] => false
  | a :: as, b :: bs => a = b && leadsWith as bs

/-- Helper for `containsSub`. -/
def containsSubAux (pat : List Char) : List Char → Bool
  | [] => leadsWith pat []
  | c :: cs => leadsWith pat (c :: cs) || containsSubAux pat cs

/-- Python substring containment (`pat in s`), used by `handle_api_error`. -/
def containsSub (s pat : String) : Bool := containsSubAux pat.toList s.toList

/-- Workflow lifecycle states (`firestore_db.WorkflowStatus`). -/
inductive WorkflowStatus where
  | pending
  | in_progress
  | completed
  | failed
  | cancelled
deriving DecidableEq

/-- Execution-log entry kinds (`firestore_db.LogEntryType`). -/
inductive LogEntryType where
  | tool_call
  | error
  | success
  | warning
  | info
deriving DecidableEq

/-- One task of a parsed workflow. Fields are optional strings: `none` means
the key is absent from the task dictionary. -/
structure Task where
  action : Option String := none
  mode : Option String := none
  recipient : Option String := none
  subject : Option String := none
  query : Option String := none
  body : Option String := none
  cc : Option String := none
  bcc : Option String := none
deriving DecidableEq

/-- Python truthiness of an optional string field: an absent key and an empty
string are both falsy. -/
def optFalsy : Option String → Bool
  | none => true
  | some s => s = ""

/-- The per-task result dictionary built by `_execute_task` (the `task` echo
field is omitted; which keys are present mirrors the source: the success
branch also sets `mode`, the exception branch only sets `action`). -/
structure TaskResult where
  success : Bool
  result : Option String := none
  error : Option String := none
  action : Option String := none
  mode : Option String := none
deriving DecidableEq

/-- Observable side effects of one engine run. `sendThinking`,
`updateThinking` and `deleteThinking` are the progress-notifier calls (both
backends); `replyText` is a direct `update.message.reply_text`; `sendFinal`
is `_send_final_result`; `invokeTool` is a capability invocation
(`tool.run`); `setStatus` a successful store status write; `logEntry` an
execution-log append attempt (its free-form `details` payload is not
modelled). -/
inductive Event where
  | sendThinking (msg : String)
  | updateThinking (msg : String)
  | deleteThinking
  | replyText (msg : String)
  | sendFinal (msg : String)
  | invokeTool (taskNumber : Nat) (action mode : String)
  | setStatus (s : WorkflowStatus)
  | logEntry (kind : LogEntryType) (msg : String) (toolName : Option String) (errorCode : Option String)
deriving DecidableEq

/-- The dictionary handed to `complete_execution`: either the completion
payload built in `execute_workflow` or the no-tasks message dictionary. -/
inductive ResultsDict where
  | completion (total successful failed : Nat) (results : List TaskResult)
  | message (s : String)
deriving DecidableEq

/-- Python return value of `execute_workflow`: a plain bool on the early
failure paths, or the `(success, final_message)` pair returned by
`complete_execution` (the final message is `json.dumps` of a results dict;
we carry the dict itself). -/
inductive PyRet where
  | bool (b : Bool)
  | tuple (ok : Bool) (finalMessage : Option ResultsDict)
deriving DecidableEq

/-- Python truthiness of the returned value; a two-element tuple is always
truthy. -/
def PyRet.truthy : PyRet → Bool
  | .bool b => b
  | .tuple _ _ => true

/-- The external world of one run: the owner's granted scopes (`none` models
a user with no token record or no scope key), whether a live telegram update
was supplied, whether `load_workflow` succeeds, whether a store status write
to a given status succeeds, and the outcome of a capability invocation
(`Except.error` models a raised exception, carrying `str(e)`). -/
structure Env where
  granted : Option (List String)
  hasUpdate : Bool
  loadOk : Bool
  statusWriteOk : WorkflowStatus → Bool
  toolRun : Nat → Task → Except String String

/-- TOOL_REGISTRY lookup (`tool_registry.create_tool_for_action`): only the
`(email, send)` and `(email, read)` pairs have tools; an unknown pair yields
`None`. The returned value is the tool's name. -/
def create_tool_for_action (action mode : String) : Option String :=
  if action = "email" ∧ mode = "send" then some "send_email"
  else if action = "email" ∧ mode = "read" then some "read_email"
  else none

/-- Placeholder denylist for `recipient` in `_validate_email_tasks`. -/
def recipientPlaceholders : List String :=
  ["recipient@example.com", "email@example.com", "user@example.com", "example@email.com"]

/-- Placeholder denylist for `subject` in `_validate_email_tasks`. -/
def subjectPlaceholders : List String :=
  ["Subject", "Email subject", "Email Subject", "subject", "SUBJECT"]

/-- Placeholder denylist for `query` in `_validate_email_tasks`. -/
def queryPlaceholders : List String :=
  ["query", "search query", "Search Query", "QUERY", "search"]

/-- Missing required fields of one task, parameterised by the three
placeholder denylists (the executor and the telegram entry point use
slightly different lists). Mode defaults to `write`; read mode requires a
query, any other mode requires recipient and subject. -/
def taskMissing (rp sp qp : List String) (t : Task) : List String :=
  if t.action = some "email" then
    let mode := t.mode.getD "write"
    if mode = "read" then
      let q := stripStr (t.query.getD "")
      if q = "" ∨ q ∈ qp then ["query"] else []
    else
      let r := stripStr (t.recipient.getD "")
      let s := stripStr (t.subject.getD "")
      (if r = "" ∨ r ∈ rp then ["recipient"] else []) ++
        (if s = "" ∨ s ∈ sp then ["subject"] else [])
  else []

/-- Builds the validation error message from the collected missing fields
(the singleton and joined branches of the source produce the same shape). -/
def missingMessage (missing : List String) : Option String :=
  match dedupKeepFirst missing with
  | [] => none
  | [f] => some ("You have not provided " ++ f ++ ". Please repeat with all required fields.")
  | fs => some ("You have not provided " ++ joinWith ", " fs ++ ". Please repeat with all required fields.")

/-- `EnhancedWorkflowExecutor._validate_email_tasks`. -/
def validate_email_tasks (tasks : List Task) : Option String :=
  missingMessage
    ((tasks.map (taskMissing recipientPlaceholders subjectPlaceholders queryPlaceholders)).flatten)

/-- Python `str(AttributeError)` raised when the debug print dereferences
`tool.name` on `None`. -/
def noneTypeAttrMsg : String :=
  sq ++ "NoneType" ++ sq ++ " object has no attribute " ++ sq ++ "name" ++ sq

/-- `_prepare_tool_arguments`: drops the `action` key, rejects read-mode
email calls whose `query` is absent or falsy (a raised ValueError), fills
the optional send-mode fields `body`, `cc`, `bcc` with empty strings. -/
def prepare_tool_arguments (action : String) (t : Task) (mode : String) : Except String Task :=
  let args : Task := { t with action := none }
  if action = "email" then
    if mode = "read" then
      if optFalsy args.query then
        Except.error ("Missing required field " ++ sq ++ "query" ++ sq ++ " for email read action")
      else Except.ok args
    else if mode = "send" then
      Except.ok { args with
        body := some (args.body.getD ""),
        cc := some (args.cc.getD ""),
        bcc := some (args.bcc.getD "") }
    else Except.ok args
  else Except.ok args

/-- `_execute_task`. Note: the debug print dereferences `tool.name` before
the `if not tool` guard, so when no tool exists for `(action, mode)` the
AttributeError path is taken and the guard (with its would-be message
`No tool available for action: A and mode: M`) is unreachable. Events are
emitted only once the invocation point is reached: the pre-invocation
`log_info` and the invocation itself, collected in `invokeEvents`. -/
def invokeEvents (taskNumber : Nat) (a m : String) : List Event :=
  [Event.logEntry .info ("Executing task " ++ toString taskNumber ++ ": " ++ a) none none,
   Event.invokeTool taskNumber a m]

/-- `_execute_task` itself; see `invokeEvents` for the notes on the
unreachable no-tool guard. -/
def execute_task (env : Env) (taskNumber : Nat) (t : Task) : TaskResult × List Event :=
  if optFalsy t.action then
    ({ success := false, error := some "No action specified in task" }, [])
  else if optFalsy t.mode then
    ({ success := false, error := some "No mode specified in task" }, [])
  else
    match create_tool_for_action (t.action.getD "") (t.mode.getD "") with
    | none =>
      ({ success := false,
         error := some ("Task execution failed: " ++ noneTypeAttrMsg),
         action := some (t.action.getD "") }, [])
    | some _toolName =>
      match prepare_tool_arguments (t.action.getD "") t (t.mode.getD "") with
      | Except.error msg =>
        ({ success := false,
           error := some ("Task execution failed: " ++ msg),
           action := some (t.action.getD "") }, [])
      | Except.ok args =>
        match env.toolRun taskNumber args with
        | Except.ok s =>
          ({ success := true, result := some s, action := some (t.action.getD ""),
             mode := some (t.mode.getD "") },
           invokeEvents taskNumber (t.action.getD "") (t.mode.getD ""))
        | Except.error msg =>
          ({ success := false,
             error := some ("Task execution failed: " ++ msg),
             action := some (t.action.getD "") },
           invokeEvents taskNumber (t.action.getD "") (t.mode.getD ""))

/-- `start_execution`: writes `in_progress` and, only when that write
succeeded, appends the start log entry. -/
def start_execution (env : Env) : Bool × List Event :=
  let ok := env.statusWriteOk .in_progress
  (ok,
   if ok then
     [Event.setStatus .in_progress,
      Event.logEntry .info "Workflow execution started with LangChain tools" none none]
   else [])

/-- `complete_execution`. The `_send_final_result` call here is an async
coroutine invoked without `await` in a sync method, so no message is
delivered on this path; the final message (the json rendering of the
results dict) is carried structurally in the returned tuple, whose second
component is `None` exactly when `results` was falsy. -/
def complete_execution (env : Env) (results : Option ResultsDict) : PyRet × List Event :=
  let ok := env.statusWriteOk .completed
  (PyRet.tuple ok results,
   if ok then
     [Event.setStatus .completed,
      Event.logEntry .success "Workflow execution completed successfully" none none]
   else [])

/-- `fail_execution`: writes `failed` and, only when that write succeeded,
appends the error log entry tagged with the error code. -/
def fail_execution (env : Env) (errorMessage : String) (errorCode : Option String) : PyRet × List Event :=
  let ok := env.statusWriteOk .failed
  (PyRet.bool ok,
   if ok then
     [Event.setStatus .failed,
      Event.logEntry .error ("Workflow execution failed: " ++ errorMessage) none errorCode]
   else [])

/-- The per-task loop of `execute_workflow` (1-based task numbers): thinking
update, task execution, then the per-task thinking update and
`log_tool_execution` entry; a failed task never aborts the loop. -/
def perTaskEvents (env : Env) (i : Nat) (t : Task) : List Event :=
  Event.updateThinking ("⚡ Executing " ++ t.action.getD "unknown" ++ "...") ::
    (execute_task env i t).2 ++
    (if (execute_task env i t).1.success then
      [Event.updateThinking ("✅ Completed " ++ t.action.getD "unknown"),
       Event.logEntry .success ("Tool " ++ sq ++ t.action.getD "unknown" ++ sq ++ " executed successfully")
         (some (t.action.getD "unknown")) none]
     else
      [Event.updateThinking ("❌ Failed: " ++ t.action.getD "unknown"),
       Event.logEntry .error ("Tool " ++ sq ++ t.action.getD "unknown" ++ sq ++ " executed with errors")
         (some (t.action.getD "unknown")) none])

/-- The loop recursion itself: one result per task, events in task order. -/
def run_tasks (env : Env) : Nat → List Task → List TaskResult × List Event
  | _, [] => ([], [])
  | i, t :: ts =>
    ((execute_task env i t).1 :: (run_tasks env (i + 1) ts).1,
     perTaskEvents env i t ++ (run_tasks env (i + 1) ts).2)

/-- The aggregation block at the end of `execute_workflow`: `n` total tasks,
`k` successful ones; full success and partial success both complete, zero
successes fail with `EXECUTION_FAILURE`. -/
def finish_execution (env : Env) (n : Nat) (results : List TaskResult) : PyRet × List Event :=
  let k := results.countP (fun r => r.success)
  let completionData := ResultsDict.completion n k (n - k) results
  if k = n then
    let firstResult :=
      match results with
      | [] => "No result"
      | r :: _ => r.result.getD "No result"
    let c := complete_execution env (some completionData)
    (c.1,
     [Event.updateThinking "🎉 All tasks completed successfully!",
      Event.deleteThinking,
      Event.sendFinal "🎉 Workflow completed successfully!",
      Event.sendFinal firstResult] ++ c.2)
  else if 0 < k then
    let c := complete_execution env (some completionData)
    (c.1,
     [Event.logEntry .warning ("Workflow completed with " ++ toString (n - k) ++ " failed tasks") none none,
      Event.updateThinking ("⚠️ Completed with " ++ toString (n - k) ++ " failures"),
      Event.deleteThinking,
      Event.sendFinal ("⚠️ Workflow completed with " ++ toString (n - k) ++ " failures")] ++ c.2)
  else
    let f := fail_execution env "All tasks failed" (some "EXECUTION_FAILURE")
    (f.1,
     [Event.updateThinking "💥 All tasks failed",
      Event.deleteThinking,
      Event.sendFinal "❌ Workflow failed - all tasks failed"] ++ f.2)

/-- `execute_workflow`. The permission checkpoint only edits the progress
message — no scope check happens inside the executor. The two early returns
(workflow data not loaded; `start_execution` failed) end the run without
deleting the thinking message. `wd` is the loaded workflow's task list
(`none` models `workflow_data` not loaded). -/
def execute_workflow (env : Env) (wd : Option (List Task)) : PyRet × List Event :=
  let e0 := [Event.sendThinking "🤔 Preparing to execute workflow..."]
  match wd with
  | none => (PyRet.bool false, e0 ++ [Event.updateThinking "❌ Workflow data not loaded"])
  | some tasks =>
    let e1 := e0 ++ [Event.updateThinking "🔍 Validating email requirements..."]
    match validate_email_tasks tasks with
    | some verr =>
      let f := fail_execution env ("Email validation failed: " ++ verr) (some "VALIDATION_ERROR")
      (PyRet.bool false,
       e1 ++ [Event.deleteThinking] ++
         (if env.hasUpdate then [Event.replyText ("❌ " ++ verr)] else []) ++ f.2)
    | none =>
      let e2 := e1 ++ [Event.updateThinking "🔍 Checking permissions..."]
      let s := start_execution env
      if s.1 then
        let e3 := e2 ++ s.2 ++ [Event.updateThinking "🚀 Starting workflow execution..."]
        match tasks with
        | [] =>
          let c := complete_execution env (some (ResultsDict.message "No tasks to execute"))
          (c.1,
           e3 ++ [Event.logEntry .warning "No tasks found in workflow" none none,
                  Event.updateThinking "⚠️ No tasks to execute",
                  Event.deleteThinking] ++ c.2)
        | _ :: _ =>
          let loop := run_tasks env 1 tasks
          let fin := finish_execution env tasks.length loop.1
          (fin.1, e3 ++ loop.2 ++ fin.2)
      else
        (PyRet.bool false, e2 ++ s.2 ++ [Event.updateThinking "❌ Failed to start execution"])

/-- GOOGLE_ACTION_SCOPES of `telegram_bot.py` (space-separated scope string
per key; unknown keys give the empty string). -/
def GOOGLE_ACTION_SCOPES (key : String) : String :=
  if key = "email_send" then
    "https://www.googleapis.com/auth/gmail.send https://www.googleapis.com/auth/gmail.compose"
  else if key = "email_read" then
    "https://www.googleapis.com/auth/gmail.readonly"
  else if key = "email" then
    "https://www.googleapis.com/auth/gmail.send https://www.googleapis.com/auth/gmail.readonly https://www.googleapis.com/auth/gmail.compose https://www.googleapis.com/auth/gmail.modify"
  else ""

/-- `extract_required_scopes_from_workflow` (here the mode defaults to
`send`; unknown modes fall back to the union key `email`). -/
def extract_required_scopes (tasks : List Task) : List String :=
  (tasks.map (fun t =>
    if t.action = some "email" then
      let mode := t.mode.getD "send"
      let key :=
        if mode = "read" then "email_read"
        else if mode = "send" then "email_send"
        else "email"
      splitWords (GOOGLE_ACTION_SCOPES key)
    else [])).flatten

/-- `get_missing_scopes`: a user with no token record (or no scope key) has
nothing granted, otherwise the set difference required minus granted. -/
def get_missing_scopes (granted : Option (List String)) (required : List String) : List String :=
  match granted with
  | none => required
  | some g => required.filter (fun s => s ∉ g)

/-- Placeholder denylists of `telegram_bot.validate_workflow` (they add a
lone-space entry to each executor list). -/
def tbRecipientPlaceholders : List String := " " :: recipientPlaceholders

/-- Subject denylist of `telegram_bot.validate_workflow`. -/
def tbSubjectPlaceholders : List String := " " :: subjectPlaceholders

/-- Query denylist of `telegram_bot.validate_workflow`. -/
def tbQueryPlaceholders : List String := " " :: queryPlaceholders

/-- `telegram_bot.validate_workflow` on a parsed workflow: flags
conversation tasks with the `not_workflow` marker, otherwise runs the same
placeholder validation. -/
def validate_workflow_tb (tasks : List Task) : Bool × Option String :=
  if tasks.any (fun t => t.action = some "conversation") then (false, some "not_workflow")
  else
    (true,
     missingMessage
       ((tasks.map (taskMissing tbRecipientPlaceholders tbSubjectPlaceholders tbQueryPlaceholders)).flatten))

/-- The `workflow` value of the backend response: absent/falsy, a string
`parse_workflow_json` cannot parse (empty dict), or a parsed task list. -/
inductive WorkflowPayload where
  | absent
  | unparseable
  | parsed (tasks : List Task)

/-- Outcome of `handle_backend_response` from the workflow payload onward.
`crashedUnpackNone`: for an unparseable workflow, `validate_workflow`
returns a bare `None` and the tuple unpacking at the call site raises.
`authPrompt`: the missing-scope gate fired; the workflow is remembered for
post-OAuth resumption and the executor is never invoked, leaving the stored
workflow `pending`. -/
inductive HBROutcome where
  | ignoredEmptyWorkflow
  | crashedUnpackNone
  | geminiConversation
  | validationReply (msg : String)
  | authPrompt (missing : List String)
  | loadFailedReply
  | executed (ret : PyRet) (events : List Event)

/-- Whether the entry point reached `execute_workflow`. -/
def HBROutcome.isExecuted : HBROutcome → Bool
  | .executed _ _ => true
  | _ => false

/-- Engine events produced by the entry point (empty unless the executor
ran). -/
def HBROutcome.execEvents : HBROutcome → List Event
  | .executed _ evs => evs
  | _ => []

/-- `handle_backend_response` from the workflow payload onward: this is
where the missing-scope gate lives — validation, then the scope check, and
only then `execute_workflow_with_thinking` (modelled as `load_workflow`
followed by `execute_workflow`). -/
def handle_backend_response (env : Env) (payload : WorkflowPayload) : HBROutcome :=
  match payload with
  | .absent => .ignoredEmptyWorkflow
  | .unparseable => .crashedUnpackNone
  | .parsed tasks =>
    let v := validate_workflow_tb tasks
    if v.1 = false ∧ v.2 = some "not_workflow" then .geminiConversation
    else
      match v.2 with
      | some e => .validationReply ("❌ " ++ e)
      | none =>
        let required := extract_required_scopes tasks
        if required ≠ [] ∧ get_missing_scopes env.granted required ≠ [] then
          .authPrompt (get_missing_scopes env.granted required)
        else if env.loadOk then
          let r := execute_workflow env (some tasks)
          .executed r.1 r.2
        else .loadFailedReply

/-- The workflow document fields touched by `update_workflow_status`
(timestamps as abstract ticks). -/
structure WorkflowDoc where
  status : WorkflowStatus
  updated_at : Nat
  execution_log : List String
deriving DecidableEq

/-- `firestore_db.update_workflow_status`: sets the status and refreshes
`updated_at` to the write time; a Firestore failure (e.g. missing document)
is caught and reported as `False` with no change. -/
def update_workflow_status (docExists : Bool) (doc : WorkflowDoc) (status : WorkflowStatus) (now : Nat) : Bool × WorkflowDoc :=
  if docExists then (true, { doc with status := status, updated_at := now })
  else (false, doc)

/-- `BaseGoogleTool.handle_api_error`: classifies the error text and returns
a human-readable string (never raises). -/
def handle_api_error (errorMsg operation : String) : String :=
  if containsSub errorMsg "invalid_scope" || containsSub errorMsg "insufficient permission" then
    "❌ Permission error: You need to re-authorize Google access for " ++ operation ++ ". Please use /connect command."
  else if containsSub errorMsg "invalid_grant" || containsSub errorMsg "401" then
    "❌ Authentication expired: Please use /connect command to re-authorize Google access."
  else
    "❌ Error in " ++ operation ++ ": " ++ errorMsg

/-- The world as seen by `SendEmailTool._run`: credentials missing, an API
exception, or a sent message id. -/
inductive GmailOutcome where
  | noCreds
  | apiError (msg : String)
  | sent (messageId : String)

/-- `SendEmailTool._run`: a total function into `String` — every failure is
returned as an error-describing string, never raised. -/
def send_email_run (recipient : String) (outcome : GmailOutcome) : String :=
  match outcome with
  | .noCreds => "Failed to authenticate with Google Gmail. Please reconnect your Google account."
  | .apiError msg => handle_api_error msg "sending email"
  | .sent messageId => "Email sent successfully to " ++ recipient ++ " with message ID: " ++ messageId

/-- Capability invocations of a trace, in order, with their task numbers. -/
def invocationList (evs : List Event) : List (Nat × String × String) :=
  evs.filterMap (fun e =>
    match e with
    | Event.invokeTool n a m => some (n, a, m)
    | _ => none)

/-- Successful status writes of a trace, in order. -/
def statusWrites (evs : List Event) : List WorkflowStatus :=
  evs.filterMap (fun e =>
    match e with
    | Event.setStatus s => some s
    | _ => none)

/-- Durable workflow status after a trace, starting from `init`. -/
def finalStatus (evs : List Event) (init : WorkflowStatus) : WorkflowStatus :=
  evs.foldl (fun s e =>
    match e with
    | Event.setStatus s2 => s2
    | _ => s) init

/-- Invocations produced by one task at one task number. -/
def taskInvocation (env : Env) (n : Nat) (t : Task) : List (Nat × String × String) :=
  invocationList (execute_task env n t).2

/-- Invocations of a task list executed in order from a given number. -/
def invocationsFrom (env : Env) : Nat → List Task → List (Nat × String × String)
  | _, [] => []
  | i, t :: ts => taskInvocation env i t ++ invocationsFrom env (i + 1) ts

/-- The trace segment of a run that passed validation and started
execution, preceding the task loop. -/
def preTraceOk : List Event :=
  [Event.sendThinking "🤔 Preparing to execute workflow...",
   Event.updateThinking "🔍 Validating email requirements...",
   Event.updateThinking "🔍 Checking permissions...",
   Event.setStatus .in_progress,
   Event.logEntry .info "Workflow execution started with LangChain tools" none none,
   Event.updateThinking "🚀 Starting workflow execution..."]

/-- Fully specified send task (the full-success scenario of the spec). -/
def goodSendTask : Task :=
  { action := some "email", mode := some "send", recipient := some "a@b.com",
    subject := some "Hi", body := some "Hello" }

/-- Send task whose recipient and subject are both placeholder values (the
missing-field scenario of the spec). -/
def placeholderTask : Task :=
  { action := some "email", mode := some "send",
    recipient := some "recipient@example.com", subject := some "Subject" }

/-- Task with an unregistered capability pair (the unresolvable-capability
scenario of the spec). -/
def faxTask : Task := { action := some "fax", mode := some "send" }

/-- Baseline environment: no scopes granted, foreground session, workflow
loads, every store write succeeds, every capability invocation returns the
reference success string. -/
def baseEnv : Env :=
  { granted := some [], hasUpdate := true, loadOk := true,
    statusWriteOk := fun _ => true,
    toolRun := fun _ _ => Except.ok "Email sent successfully to a@b.com with message ID: 123" }

/-- Environment whose second capability invocation raises. -/
def secondThrowsEnv : Env :=
  { baseEnv with toolRun := fun n _ => if n = 2 then Except.error "boom" else Except.ok "ok" }

/-- Environment in which every capability invocation returns (without
raising) an authentication-failure string, as `SendEmailTool._run` does when
credentials are missing. -/
def authFailEnv : Env :=
  { baseEnv with toolRun := fun _ _ => Except.ok (send_email_run "a@b.com" GmailOutcome.noCreds) }

/-- Environment whose store cannot write the `in_progress` status. -/
def startFailEnv : Env :=
  { baseEnv with statusWriteOk := fun s =>
      match s with
      | .in_progress => false
      | _ => true }

/-- Background-messaging environment (no live telegram update). -/
def backgroundEnv : Env := { baseEnv with hasUpdate := false }

/-- Validation error message of the placeholder scenario. -/
def placeholderMsg : String :=
  "You have not provided recipient, subject. Please repeat with all required fields."

/-- Initial workflow document used for the store idempotence analysis. -/
def doc0 : WorkflowDoc := { status := .pending, updated_at := 0, execution_log := [] }

/-! Helper lemmas about traces. -/

theorem invocationList_append (a b : List Event) :
    invocationList (a ++ b) = invocationList a ++ invocationList b := by
  simp [invocationList]

theorem statusWrites_append (a b : List Event) :
    statusWrites (a ++ b) = statusWrites a ++ statusWrites b := by
  simp [statusWrites]

theorem finalStatus_append (a b : List Event) (x : WorkflowStatus) :
    finalStatus (a ++ b) x = finalStatus b (finalStatus a x) := by
  simp [finalStatus, List.foldl_append]

theorem finalStatus_of_no_writes :
    ∀ (evs : List Event) (x : WorkflowStatus), statusWrites evs = [] → finalStatus evs x = x := by
  intro evs
  induction evs with
  | nil => intro x _; rfl
  | cons e es ih =>
    intro x h
    cases e <;> first
      | exact absurd h (List.cons_ne_nil _ _)
      | exact ih x h

theorem execute_task_events (env : Env) (n : Nat) (t : Task) :
    (execute_task env n t).2 = [] ∨
      (execute_task env n t).2 = invokeEvents n (t.action.getD "") (t.mode.getD "") := by
  unfold execute_task
  split
  · exact Or.inl rfl
  · split
    · exact Or.inl rfl
    · split
      · exact Or.inl rfl
      · split
        · exact Or.inl rfl
        · split
          · exact Or.inr rfl
          · exact Or.inr rfl

theorem statusWrites_execute_task (env : Env) (n : Nat) (t : Task) :
    statusWrites (execute_task env n t).2 = [] := by
  rcases execute_task_events env n t with h | h <;> rw [h] <;> simp [statusWrites, invokeEvents]

theorem deleteThinking_not_in_execute_task (env : Env) (n : Nat) (t : Task) :
    Event.deleteThinking ∉ (execute_task env n t).2 := by
  rcases execute_task_events env n t with h | h <;> rw [h] <;> simp [invokeEvents]

theorem taskInvocation_cases (env : Env) (n : Nat) (t : Task) :
    taskInvocation env n t = [] ∨
      taskInvocation env n t = [(n, t.action.getD "", t.mode.getD "")] := by
  unfold taskInvocation
  rcases execute_task_events env n t with h | h <;> rw [h]
  · exact Or.inl rfl
  · exact Or.inr (by simp [invocationList, invokeEvents])

theorem taskInvocation_number (env : Env) (n : Nat) (t : Task) :
    ∀ p ∈ taskInvocation env n t, p.1 = n := by
  rcases taskInvocation_cases env n t with h | h <;> rw [h] <;> simp

theorem statusWrites_perTask (env : Env) (i : Nat) (t : Task) :
    statusWrites (perTaskEvents env i t) = [] := by
  unfold perTaskEvents
  rcases execute_task_events env i t with h | h <;> rw [h] <;>
    cases hsucc : (execute_task env i t).1.success <;>
      simp [hsucc, statusWrites, invokeEvents]

theorem deleteThinking_not_in_perTask (env : Env) (i : Nat) (t : Task) :
    Event.deleteThinking ∉ perTaskEvents env i t := by
  intro hmem
  unfold perTaskEvents at hmem
  rcases execute_task_events env i t with h | h <;> rw [h] at hmem <;>
    cases hsucc : (execute_task env i t).1.success <;> rw [hsucc] at hmem <;>
      simp [invokeEvents] at hmem

theorem invocationList_perTask (env : Env) (i : Nat) (t : Task) :
    invocationList (perTaskEvents env i t) = taskInvocation env i t := by
  unfold perTaskEvents taskInvocation
  cases hsucc : (execute_task env i t).1.success <;>
    simp [hsucc, invocationList]

theorem run_tasks_length (env : Env) :
    ∀ (ts : List Task) (i : Nat), (run_tasks env i ts).1.length = ts.length := by
  intro ts
  induction ts with
  | nil => intro i; rfl
  | cons t ts ih => intro i; simp [run_tasks, ih]

theorem run_tasks_statusWrites (env : Env) :
    ∀ (ts : List Task) (i : Nat), statusWrites (run_tasks env i ts).2 = [] := by
  intro ts
  induction ts with
  | nil => intro i; rfl
  | cons t ts ih =>
    intro i
    simp only [run_tasks, statusWrites_append, statusWrites_perTask, ih]
    rfl

theorem run_tasks_finalStatus (env : Env) (ts : List Task) (i : Nat) (x : WorkflowStatus) :
    finalStatus (run_tasks env i ts).2 x = x :=
  finalStatus_of_no_writes _ x (run_tasks_statusWrites env ts i)

theorem run_tasks_no_delete (env : Env) :
    ∀ (ts : List Task) (i : Nat), Event.deleteThinking ∉ (run_tasks env i ts).2 := by
  intro ts
  induction ts with
  | nil => intro i h; simp [run_tasks] at h
  | cons t ts ih =>
    intro i h
    simp only [run_tasks] at h
    rcases List.mem_append.mp h with h | h
    · exact deleteThinking_not_in_perTask env i t h
    · exact ih (i + 1) h

theorem run_tasks_invocations (env : Env) :
    ∀ (ts : List Task) (i : Nat), invocationList (run_tasks env i ts).2 = invocationsFrom env i ts := by
  intro ts
  induction ts with
  | nil => intro i; rfl
  | cons t ts ih =>
    intro i
    simp only [run_tasks, invocationsFrom, invocationList_append, invocationList_perTask, ih]

theorem invocationsFrom_ge (env : Env) :
    ∀ (ts : List Task) (i : Nat), ∀ p ∈ invocationsFrom env i ts, i ≤ p.1 := by
  intro ts
  induction ts with
  | nil => intro i p hp; simp [invocationsFrom] at hp
  | cons t ts ih =>
    intro i p hp
    simp only [invocationsFrom] at hp
    rcases List.mem_append.mp hp with h | h
    · exact le_of_eq (taskInvocation_number env i t p h).symm
    · exact le_trans (Nat.le_succ i) (ih (i + 1) p h)

theorem invocationsFrom_pairwise (env : Env) :
    ∀ (ts : List Task) (i : Nat),
      List.Pairwise (fun p q => p.1 < q.1) (invocationsFrom env i ts) := by
  intro ts
  induction ts with
  | nil => intro i; exact List.Pairwise.nil
  | cons t ts ih =>
    intro i
    simp only [invocationsFrom]
    refine List.pairwise_append.mpr ⟨?_, ih (i + 1), ?_⟩
    · rcases taskInvocation_cases env i t with h | h <;> rw [h] <;> simp
    · intro p hp q hq
      have h1 : p.1 = i := taskInvocation_number env i t p hp
      have h2 : i + 1 ≤ q.1 := invocationsFrom_ge env ts (i + 1) q hq
      omega

theorem complete_execution_ok (env : Env) (hw : env.statusWriteOk .completed = true)
    (r : Option ResultsDict) :
    complete_execution env r =
      (PyRet.tuple true r,
       [Event.setStatus .completed,
        Event.logEntry .success "Workflow execution completed successfully" none none]) := by
  simp [complete_execution, hw]

theorem fail_execution_ok (env : Env) (hw : env.statusWriteOk .failed = true)
    (msg : String) (code : Option String) :
    fail_execution env msg code =
      (PyRet.bool true,
       [Event.setStatus .failed,
        Event.logEntry .error ("Workflow execution failed: " ++ msg) none code]) := by
  simp [fail_execution, hw]

theorem execute_workflow_validation_failed (env : Env) (tasks : List Task) (verr : String)
    (hv : validate_email_tasks tasks = some verr) :
    execute_workflow env (some tasks) =
      (PyRet.bool false,
       [Event.sendThinking "🤔 Preparing to execute workflow...",
        Event.updateThinking "🔍 Validating email requirements...",
        Event.deleteThinking] ++
         (if env.hasUpdate then [Event.replyText ("❌ " ++ verr)] else []) ++
         (fail_execution env ("Email validation failed: " ++ verr) (some "VALIDATION_ERROR")).2) := by
  simp [execute_workflow, hv]

theorem execute_workflow_empty (env : Env) (hs : env.statusWriteOk .in_progress = true) :
    execute_workflow env (some []) =
      ((complete_execution env (some (ResultsDict.message "No tasks to execute"))).1,
       preTraceOk ++
         [Event.logEntry .warning "No tasks found in workflow" none none,
          Event.updateThinking "⚠️ No tasks to execute",
          Event.deleteThinking] ++
         (complete_execution env (some (ResultsDict.message "No tasks to execute"))).2) := by
  have hv : validate_email_tasks [] = none := rfl
  simp [execute_workflow, hv, start_execution, hs, preTraceOk]

theorem execute_workflow_start_failed (env : Env) (tasks : List Task)
    (hv : validate_email_tasks tasks = none)
    (hs : env.statusWriteOk .in_progress = false) :
    execute_workflow env (some tasks) =
      (PyRet.bool false,
       [Event.sendThinking "🤔 Preparing to execute workflow...",
        Event.updateThinking "🔍 Validating email requirements...",
        Event.updateThinking "🔍 Checking permissions...",
        Event.updateThinking "❌ Failed to start execution"]) := by
  simp [execute_workflow, hv, start_execution, hs]

theorem execute_workflow_nonempty (env : Env) (t : Task) (ts : List Task)
    (hv : validate_email_tasks (t :: ts) = none)
    (hs : env.statusWriteOk .in_progress = true) :
    execute_workflow env (some (t :: ts)) =
      ((finish_execution env (t :: ts).length (run_tasks env 1 (t :: ts)).1).1,
       preTraceOk ++ (run_tasks env 1 (t :: ts)).2 ++
         (finish_execution env (t :: ts).length (run_tasks env 1 (t :: ts)).1).2) := by
  simp [execute_workflow, hv, start_execution, hs, preTraceOk]

theorem finish_execution_all (env : Env) (n : Nat) (results : List TaskResult)
    (hk : results.countP (fun r => r.success) = n) :
    finish_execution env n results =
      ((complete_execution env (some (ResultsDict.completion n n (n - n) results))).1,
       [Event.updateThinking "🎉 All tasks completed successfully!",
        Event.deleteThinking,
        Event.sendFinal "🎉 Workflow completed successfully!",
        Event.sendFinal
          (match results with
           | [] => "No result"
           | r :: _ => r.result.getD "No result")] ++
         (complete_execution env (some (ResultsDict.completion n n (n - n) results))).2) := by
  cases results with
  | nil => simp_all [finish_execution]
  | cons r rs => simp_all [finish_execution]

theorem finish_execution_mixed (env : Env) (n : Nat) (results : List TaskResult)
    (h0 : 0 < results.countP (fun r => r.success))
    (hn : results.countP (fun r => r.success) ≠ n) :
    finish_execution env n results =
      ((complete_execution env
          (some (ResultsDict.completion n (results.countP (fun r => r.success))
            (n - results.countP (fun r => r.success)) results))).1,
       [Event.logEntry .warning
          ("Workflow completed with " ++ toString (n - results.countP (fun r => r.success)) ++ " failed tasks")
          none none,
        Event.updateThinking
          ("⚠️ Completed with " ++ toString (n - results.countP (fun r => r.success)) ++ " failures"),
        Event.deleteThinking,
        Event.sendFinal
          ("⚠️ Workflow completed with " ++ toString (n - results.countP (fun r => r.success)) ++ " failures")] ++
         (complete_execution env
           (some (ResultsDict.completion n (results.countP (fun r => r.success))
             (n - results.countP (fun r => r.success)) results))).2) := by
  simp [finish_execution, hn, h0]

theorem finish_execution_zero (env : Env) (n : Nat) (results : List TaskResult)
    (hk : results.countP (fun r => r.success) = 0) (hn : 0 < n) :
    finish_execution env n results =
      ((fail_execution env "All tasks failed" (some "EXECUTION_FAILURE")).1,
       [Event.updateThinking "💥 All tasks failed",
        Event.deleteThinking,
        Event.sendFinal "❌ Workflow failed - all tasks failed"] ++
         (fail_execution env "All tasks failed" (some "EXECUTION_FAILURE")).2) := by
  have h1 : results.countP (fun r => r.success) ≠ n := by omega
  have h2 : ¬ 0 < results.countP (fun r => r.success) := by omega
  simp [finish_execution, h1, h2]

theorem get_missing_scopes_nil (g : Option (List String)) : get_missing_scopes g [] = [] := by
  cases g <;> simp [get_missing_scopes]

theorem invocationList_complete (env : Env) (r : Option ResultsDict) :
    invocationList (complete_execution env r).2 = [] := by
  unfold complete_execution
  cases h : env.statusWriteOk .completed <;> simp [h, invocationList]

theorem invocationList_fail (env : Env) (msg : String) (code : Option String) :
    invocationList (fail_execution env msg code).2 = [] := by
  unfold fail_execution
  cases h : env.statusWriteOk .failed <;> simp [h, invocationList]

theorem invocationList_finish (env : Env) (n : Nat) (results : List TaskResult) :
    invocationList (finish_execution env n results).2 = [] := by
  by_cases h1 : results.countP (fun r => r.success) = n
  · rw [finish_execution_all env n results h1, invocationList_append, invocationList_complete]
    rfl
  · by_cases h2 : 0 < results.countP (fun r => r.success)
    · rw [finish_execution_mixed env n results h2 h1, invocationList_append,
        invocationList_complete]
      rfl
    · have hk : results.countP (fun r => r.success) = 0 := by omega
      have hn : 0 < n := by omega
      rw [finish_execution_zero env n results hk hn, invocationList_append, invocationList_fail]
      rfl

theorem deleteThinking_in_finish (env : Env) (n : Nat) (results : List TaskResult) :
    Event.deleteThinking ∈ (finish_execution env n results).2 := by
  by_cases h1 : results.countP (fun r => r.success) = n
  · rw [finish_execution_all env n results h1]
    simp
  · by_cases h2 : 0 < results.countP (fun r => r.success)
    · rw [finish_execution_mixed env n results h2 h1]
      simp
    · have hk : results.countP (fun r => r.success) = 0 := by omega
      have hn : 0 < n := by omega
      rw [finish_execution_zero env n results hk hn]
      simp

/-! Claim theorems. -/

/-- Claim C1, counterexample to the claim as stated: with no scopes granted
(`baseEnv.granted = some []`) the single send task is missing required
scopes, yet `execute_workflow` still invokes the capability once and drives
the workflow status to `completed` rather than leaving it `pending`: the
executor itself performs no scope check. -/
theorem c1_counterexample :
    get_missing_scopes baseEnv.granted (extract_required_scopes [goodSendTask]) ≠ [] ∧
    invocationList (execute_workflow baseEnv (some [goodSendTask])).2 = [(1, "email", "send")] ∧
    finalStatus (execute_workflow baseEnv (some [goodSendTask])).2 .pending = WorkflowStatus.completed := by
  refine ⟨by decide, by decide, by decide⟩

/-- Claim C1 (amended): the missing-scope gate is enforced by the caller
`handle_backend_response`, before the executor is ever constructed: whenever
`get_missing_scopes` is non-empty for the workflow's required scopes the
entry point never reaches `execute_workflow` (an authorization prompt is
issued instead), so zero capabilities are invoked and no status write
happens — the stored workflow stays `pending`. -/
theorem c1_gate_in_caller (env : Env) (tasks : List Task)
    (h : get_missing_scopes env.granted (extract_required_scopes tasks) ≠ []) :
    (handle_backend_response env (WorkflowPayload.parsed tasks)).isExecuted = false ∧
    invocationList (handle_backend_response env (WorkflowPayload.parsed tasks)).execEvents = [] ∧
    statusWrites (handle_backend_response env (WorkflowPayload.parsed tasks)).execEvents = [] := by
  have hreq : extract_required_scopes tasks ≠ [] := by
    intro h0
    apply h
    rw [h0]
    exact get_missing_scopes_nil env.granted
  simp only [handle_backend_response]
  split
  · exact ⟨rfl, rfl, rfl⟩
  · split
    · exact ⟨rfl, rfl, rfl⟩
    · rw [if_pos ⟨hreq, h⟩]
      exact ⟨rfl, rfl, rfl⟩

/-- Claim C1 witness: the amended gate theorem applied at a user with no
granted scopes and the reference send task. -/
theorem c1_gate_in_caller_witness :
    get_missing_scopes baseEnv.granted (extract_required_scopes [goodSendTask]) ≠ [] ∧
    (handle_backend_response baseEnv (WorkflowPayload.parsed [goodSendTask])).isExecuted = false :=
  ⟨by decide, (c1_gate_in_caller baseEnv [goodSendTask] (by decide)).1⟩

/-- Claim C3, counterexample to the exact-message part of the claim: in the
placeholder scenario the validation error is the quoted sentence, but the
message actually sent to the user is that sentence prefixed with the cross
mark — no event of the run carries the quoted sentence verbatim. -/
theorem c3_message_counterexample :
    validate_email_tasks [placeholderTask] = some placeholderMsg ∧
    Event.replyText ("❌ " ++ placeholderMsg) ∈ (execute_workflow baseEnv (some [placeholderTask])).2 ∧
    (∀ e ∈ (execute_workflow baseEnv (some [placeholderTask])).2,
      e ≠ Event.replyText placeholderMsg ∧ e ≠ Event.sendFinal placeholderMsg) := by
  refine ⟨by decide, by decide, by decide⟩

/-- Claim C3 (amended): a task list failing email validation makes
`execute_workflow` return failure before any capability is invoked, with the
workflow transitioned to `failed` under error code VALIDATION_ERROR (when
the store write succeeds); the user-facing message — sent only when a live
telegram update is present, and not at all in background mode — is the
cross mark followed by the missing-field list. -/
theorem c3_validation_failure (env : Env) (tasks : List Task) (verr : String)
    (hv : validate_email_tasks tasks = some verr) :
    (execute_workflow env (some tasks)).1 = PyRet.bool false ∧
    invocationList (execute_workflow env (some tasks)).2 = [] ∧
    (env.hasUpdate = true →
      Event.replyText ("❌ " ++ verr) ∈ (execute_workflow env (some tasks)).2) ∧
    (env.hasUpdate = false →
      ∀ m, Event.replyText m ∉ (execute_workflow env (some tasks)).2) ∧
    (env.statusWriteOk .failed = true →
      finalStatus (execute_workflow env (some tasks)).2 .pending = WorkflowStatus.failed ∧
      Event.logEntry .error ("Workflow execution failed: " ++ ("Email validation failed: " ++ verr))
        none (some "VALIDATION_ERROR") ∈ (execute_workflow env (some tasks)).2) := by
  rw [execute_workflow_validation_failed env tasks verr hv]
  cases hu : env.hasUpdate <;> cases hw : env.statusWriteOk WorkflowStatus.failed <;>
    simp [fail_execution, hu, hw, invocationList, finalStatus]

/-- Claim C3 witness: the amended theorem applied at the placeholder
scenario in a foreground session with a working store. -/
theorem c3_validation_failure_witness :
    validate_email_tasks [placeholderTask] = some placeholderMsg ∧
    (execute_workflow baseEnv (some [placeholderTask])).1 = PyRet.bool false ∧
    Event.replyText ("❌ " ++ placeholderMsg) ∈ (execute_workflow baseEnv (some [placeholderTask])).2 := by
  have h := c3_validation_failure baseEnv [placeholderTask] placeholderMsg (by decide)
  exact ⟨by decide, h.1, h.2.2.1 rfl⟩

/-- Claim C4: on the fax task the recorded per-task result is a failure, but
its error is the AttributeError text raised by the debug print dereferencing
the absent tool — not the claimed `No tool available` message, which sits in
an unreachable branch; the run still ends `failed` with EXECUTION_FAILURE. -/
theorem c4_no_tool_behavior :
    (execute_task baseEnv 1 faxTask).1 =
      { success := false, result := none,
        error := some ("Task execution failed: " ++ noneTypeAttrMsg),
        action := some "fax", mode := none } ∧
    (execute_task baseEnv 1 faxTask).1.error ≠
      some "No tool available for action: fax and mode: send" ∧
    (execute_workflow baseEnv (some [faxTask])).1 = PyRet.bool true ∧
    finalStatus (execute_workflow baseEnv (some [faxTask])).2 .pending = WorkflowStatus.failed ∧
    Event.logEntry .error "Workflow execution failed: All tasks failed" none (some "EXECUTION_FAILURE")
      ∈ (execute_workflow baseEnv (some [faxTask])).2 := by
  refine ⟨by decide, by decide, by decide, by decide, by decide⟩

/-- Claim C6, counterexample to the claim as stated: when the workflow data
is not loaded, `execute_workflow` creates the thinking message, updates it,
and returns without ever deleting it. -/
theorem c6_dangling_counterexample :
    (execute_workflow baseEnv none).1 = PyRet.bool false ∧
    Event.sendThinking "🤔 Preparing to execute workflow..." ∈ (execute_workflow baseEnv none).2 ∧
    Event.deleteThinking ∉ (execute_workflow baseEnv none).2 := by
  refine ⟨by decide, by decide, by decide⟩

/-- Claim C6 (amended): the thinking message is retired on the validation
failure path, the empty-task path and every aggregation outcome, but on the
two early returns — workflow data not loaded, and `start_execution` failing
— the run ends without retiring it. -/
theorem c6_thinking_retirement (env : Env) (wd : Option (List Task)) :
    (wd = none → Event.deleteThinking ∉ (execute_workflow env wd).2) ∧
    (∀ tasks verr, wd = some tasks → validate_email_tasks tasks = some verr →
      Event.deleteThinking ∈ (execute_workflow env wd).2) ∧
    (∀ tasks, wd = some tasks → validate_email_tasks tasks = none →
      env.statusWriteOk .in_progress = false →
      Event.deleteThinking ∉ (execute_workflow env wd).2) ∧
    (∀ tasks, wd = some tasks → validate_email_tasks tasks = none →
      env.statusWriteOk .in_progress = true →
      Event.deleteThinking ∈ (execute_workflow env wd).2) := by
  refine ⟨?_, ?_, ?_, ?_⟩
  · rintro rfl
    simp [execute_workflow]
  · rintro tasks verr rfl hv
    rw [execute_workflow_validation_failed env tasks verr hv]
    simp
  · rintro tasks rfl hv hs
    rw [execute_workflow_start_failed env tasks hv hs]
    simp
  · rintro tasks rfl hv hs
    cases tasks with
    | nil =>
      rw [execute_workflow_empty env hs]
      simp
    | cons t ts =>
      rw [execute_workflow_nonempty env t ts hv hs]
      have hfin := deleteThinking_in_finish env (ts.length + 1) (run_tasks env 1 (t :: ts)).1
      simp [List.mem_append, hfin]

/-- Claim C6 witness: the amended theorem applied on all four paths — the
two dangling early returns and two retiring paths. -/
theorem c6_thinking_retirement_witness :
    Event.deleteThinking ∉ (execute_workflow baseEnv none).2 ∧
    Event.deleteThinking ∈ (execute_workflow baseEnv (some [placeholderTask])).2 ∧
    Event.deleteThinking ∉ (execute_workflow startFailEnv (some [goodSendTask])).2 ∧
    Event.deleteThinking ∈ (execute_workflow baseEnv (some [goodSendTask])).2 :=
  ⟨(c6_thinking_retirement baseEnv none).1 rfl,
   (c6_thinking_retirement baseEnv (some [placeholderTask])).2.1 [placeholderTask] placeholderMsg rfl (by decide),
   (c6_thinking_retirement startFailEnv (some [goodSendTask])).2.2.1 [goodSendTask] rfl (by decide) rfl,
   (c6_thinking_retirement baseEnv (some [goodSendTask])).2.2.2 [goodSendTask] rfl (by decide) rfl⟩

/-- Claim C7: a zero-task workflow completes successfully — the run returns
the truthy `(True, message-dict)` pair with no execution results, performs
no capability invocation, and the status ends `completed`. -/
theorem c7_empty_tasks (env : Env)
    (h1 : env.statusWriteOk .in_progress = true)
    (h2 : env.statusWriteOk .completed = true) :
    (execute_workflow env (some [])).1 =
      PyRet.tuple true (some (ResultsDict.message "No tasks to execute")) ∧
    ((execute_workflow env (some [])).1).truthy = true ∧
    finalStatus (execute_workflow env (some [])).2 .pending = WorkflowStatus.completed ∧
    invocationList (execute_workflow env (some [])).2 = [] := by
  rw [execute_workflow_empty env h1, complete_execution_ok env h2]
  exact ⟨rfl, rfl, rfl, rfl⟩

/-- Claim C7 witness: the empty-workflow theorem at the baseline
environment. -/
theorem c7_empty_tasks_witness :
    (execute_workflow baseEnv (some [])).1 =
      PyRet.tuple true (some (ResultsDict.message "No tasks to execute")) :=
  (c7_empty_tasks baseEnv rfl rfl).1

/-- Claim C8, counterexample to the claim as stated: two identical status
writes at successive times leave a different document than a single write,
because `updated_at` is refreshed by the second write; only the status and
log components coincide. -/
theorem c8_counterexample :
    (update_workflow_status true (update_workflow_status true doc0 .completed 1).2 .completed 2).2 ≠
      (update_workflow_status true doc0 .completed 1).2 ∧
    (update_workflow_status true (update_workflow_status true doc0 .completed 1).2 .completed 2).2.status =
      (update_workflow_status true doc0 .completed 1).2.status := by
  refine ⟨by decide, by decide⟩

/-- Claim C8 (amended): repeated identical status writes are idempotent on
every observable field except `updated_at` — status, log and the returned
boolean are unchanged by the second write; the double write equals a single
write at the second time, and at equal timestamps the operation is literally
idempotent. -/
theorem c8_idempotent_up_to_timestamp (ex : Bool) (d : WorkflowDoc) (s : WorkflowStatus) (t1 t2 : Nat) :
    ((update_workflow_status ex (update_workflow_status ex d s t1).2 s t2).2).status =
      ((update_workflow_status ex d s t1).2).status ∧
    ((update_workflow_status ex (update_workflow_status ex d s t1).2 s t2).2).execution_log =
      ((update_workflow_status ex d s t1).2).execution_log ∧
    (update_workflow_status ex (update_workflow_status ex d s t1).2 s t2).1 =
      (update_workflow_status ex d s t1).1 ∧
    (update_workflow_status ex (update_workflow_status ex d s t1).2 s t2).2 =
      (update_workflow_status ex d s t2).2 ∧
    (t1 = t2 →
      (update_workflow_status ex (update_workflow_status ex d s t1).2 s t2).2 =
        (update_workflow_status ex d s t1).2) := by
  cases ex <;> simp [update_workflow_status] <;> intro h <;> rw [h]

/-- Claim C8 witness: the amended theorem applied at equal timestamps on the
initial document. -/
theorem c8_idempotent_witness :
    (update_workflow_status true (update_workflow_status true doc0 .completed 3).2 .completed 3).2 =
      (update_workflow_status true doc0 .completed 3).2 :=
  (c8_idempotent_up_to_timestamp true doc0 .completed 3 3).2.2.2.2 rfl

/-- Claim C2: in a run with n > 0 tasks that reaches aggregation with k
successful tasks and a working store, k = n drives the status to
`completed`; 0 < k < n still drives it to `completed` while a warning log
entry naming the failure count is appended and the failure count is stated
in a final message; k = 0 drives it to `failed` with error code
EXECUTION_FAILURE. -/
theorem c2_aggregation (env : Env) (tasks : List Task)
    (hne : tasks ≠ [])
    (hv : validate_email_tasks tasks = none)
    (hw : ∀ s, env.statusWriteOk s = true) :
    ((run_tasks env 1 tasks).1.countP (fun r => r.success) = tasks.length →
      finalStatus (execute_workflow env (some tasks)).2 .pending = WorkflowStatus.completed) ∧
    (0 < (run_tasks env 1 tasks).1.countP (fun r => r.success) →
      (run_tasks env 1 tasks).1.countP (fun r => r.success) < tasks.length →
      finalStatus (execute_workflow env (some tasks)).2 .pending = WorkflowStatus.completed ∧
      Event.logEntry .warning
        ("Workflow completed with " ++
          toString (tasks.length - (run_tasks env 1 tasks).1.countP (fun r => r.success)) ++
          " failed tasks") none none ∈ (execute_workflow env (some tasks)).2 ∧
      Event.sendFinal
        ("⚠️ Workflow completed with " ++
          toString (tasks.length - (run_tasks env 1 tasks).1.countP (fun r => r.success)) ++
          " failures") ∈ (execute_workflow env (some tasks)).2) ∧
    ((run_tasks env 1 tasks).1.countP (fun r => r.success) = 0 →
      finalStatus (execute_workflow env (some tasks)).2 .pending = WorkflowStatus.failed ∧
      Event.logEntry .error ("Workflow execution failed: " ++ "All tasks failed") none
        (some "EXECUTION_FAILURE") ∈ (execute_workflow env (some tasks)).2) := by
  obtain ⟨t, ts, rfl⟩ := List.exists_cons_of_ne_nil hne
  rw [execute_workflow_nonempty env t ts hv (hw _)]
  refine ⟨?_, ?_, ?_⟩
  · intro hk
    rw [finish_execution_all env _ _ hk, complete_execution_ok env (hw _)]
    simp only [finalStatus_append, run_tasks_finalStatus]
    rfl
  · intro h0 hn
    have hkn : (run_tasks env 1 (t :: ts)).1.countP (fun r => r.success) ≠ (t :: ts).length :=
      Nat.ne_of_lt hn
    rw [finish_execution_mixed env _ _ h0 hkn, complete_execution_ok env (hw _)]
    refine ⟨?_, ?_, ?_⟩
    · simp only [finalStatus_append, run_tasks_finalStatus]
      rfl
    · simp
    · simp
  · intro hk
    have hn : 0 < (t :: ts).length := by simp
    rw [finish_execution_zero env _ _ hk hn, fail_execution_ok env (hw _)]
    refine ⟨?_, ?_⟩
    · simp only [finalStatus_append, run_tasks_finalStatus]
      rfl
    · simp

/-- Claim C2 witness: the aggregation theorem applied at a two-task run in
which exactly one task succeeds — the partial-success case. -/
theorem c2_aggregation_witness :
    (run_tasks baseEnv 1 [goodSendTask, faxTask]).1.countP (fun r => r.success) = 1 ∧
    finalStatus (execute_workflow baseEnv (some [goodSendTask, faxTask])).2 .pending =
      WorkflowStatus.completed ∧
    Event.logEntry .warning
      ("Workflow completed with " ++
        toString ([goodSendTask, faxTask].length -
          (run_tasks baseEnv 1 [goodSendTask, faxTask]).1.countP (fun r => r.success)) ++
        " failed tasks") none none
      ∈ (execute_workflow baseEnv (some [goodSendTask, faxTask])).2 := by
  have h := (c2_aggregation baseEnv [goodSendTask, faxTask] (by decide) (by decide)
    (fun _ => rfl)).2.1 (by decide) (by decide)
  exact ⟨by decide, h.1, h.2.1⟩

/-- Claim C5: capabilities are invoked strictly in task-list order (the
invocation trace is the ordered per-task concatenation and its task numbers
are strictly increasing), and every task yields exactly one recorded result
— a throwing invocation is converted to a failure result and the loop never
aborts. -/
theorem c5_order_and_isolation (env : Env) (tasks : List Task)
    (hne : tasks ≠ [])
    (hv : validate_email_tasks tasks = none)
    (hs : env.statusWriteOk .in_progress = true) :
    invocationList (execute_workflow env (some tasks)).2 = invocationsFrom env 1 tasks ∧
    List.Pairwise (fun p q => p.1 < q.1) (invocationList (execute_workflow env (some tasks)).2) ∧
    (run_tasks env 1 tasks).1.length = tasks.length := by
  obtain ⟨t, ts, rfl⟩ := List.exists_cons_of_ne_nil hne
  rw [execute_workflow_nonempty env t ts hv hs]
  have hmain : invocationList
      (preTraceOk ++ (run_tasks env 1 (t :: ts)).2 ++
        (finish_execution env (t :: ts).length (run_tasks env 1 (t :: ts)).1).2) =
      invocationsFrom env 1 (t :: ts) := by
    rw [invocationList_append, invocationList_append, invocationList_finish,
      run_tasks_invocations]
    simp [invocationList, preTraceOk]
  refine ⟨hmain, ?_, run_tasks_length env (t :: ts) 1⟩
  rw [hmain]
  exact invocationsFrom_pairwise env (t :: ts) 1

/-- Claim C5 witness: a three-task run whose second invocation raises — all
three capabilities are still invoked, in order, and three results are
recorded with exactly two successes. -/
theorem c5_order_and_isolation_witness :
    invocationList (execute_workflow secondThrowsEnv
        (some [goodSendTask, goodSendTask, goodSendTask])).2 =
      [(1, "email", "send"), (2, "email", "send"), (3, "email", "send")] ∧
    (run_tasks secondThrowsEnv 1 [goodSendTask, goodSendTask, goodSendTask]).1.length = 3 ∧
    (run_tasks secondThrowsEnv 1 [goodSendTask, goodSendTask, goodSendTask]).1.countP
      (fun r => r.success) = 2 := by
  have h := c5_order_and_isolation secondThrowsEnv [goodSendTask, goodSendTask, goodSendTask]
    (by decide) (by decide) rfl
  refine ⟨?_, h.2.2, by decide⟩
  rw [h.1]
  decide

/-- Claim C9: whenever a capability invocation returns a string without
raising, the recorded per-task result is a success carrying that string —
whatever the string says — and it counts as one more success in the k-of-n
aggregation. -/
theorem c9_returned_string_is_success (env : Env) (n : Nat) (t : Task) (args : Task) (s : String)
    (ha : optFalsy t.action = false) (hm : optFalsy t.mode = false)
    (htool : (create_tool_for_action (t.action.getD "") (t.mode.getD "")).isSome = true)
    (hprep : prepare_tool_arguments (t.action.getD "") t (t.mode.getD "") = Except.ok args)
    (hrun : env.toolRun n args = Except.ok s) :
    (execute_task env n t).1.success = true ∧
    (execute_task env n t).1.result = some s ∧
    ∀ rs : List TaskResult,
      ((execute_task env n t).1 :: rs).countP (fun r => r.success) =
        rs.countP (fun r => r.success) + 1 := by
  obtain ⟨tn, htn⟩ := Option.isSome_iff_exists.mp htool
  have hstep : execute_task env n t =
      ({ success := true, result := some s, action := some (t.action.getD ""),
         mode := some (t.mode.getD "") },
       invokeEvents n (t.action.getD "") (t.mode.getD "")) := by
    unfold execute_task
    simp [ha, hm, htn, hprep, hrun]
  rw [hstep]
  exact ⟨rfl, rfl, fun rs => by simp [List.countP_cons]⟩

/-- Claim C9 witness: a send task whose capability returns the
authentication-failure string of `SendEmailTool._run` without raising — the
per-task result is recorded as a success carrying that error-describing
string. -/
theorem c9_returned_string_is_success_witness :
    send_email_run "a@b.com" GmailOutcome.noCreds =
      "Failed to authenticate with Google Gmail. Please reconnect your Google account." ∧
    (execute_task authFailEnv 1 goodSendTask).1.success = true ∧
    (execute_task authFailEnv 1 goodSendTask).1.result =
      some "Failed to authenticate with Google Gmail. Please reconnect your Google account." := by
  have h := c9_returned_string_is_success authFailEnv 1 goodSendTask
    { goodSendTask with action := none, body := some "Hello", cc := some "", bcc := some "" }
    (send_email_run "a@b.com" GmailOutcome.noCreds)
    (by decide) (by decide) (by decide) rfl rfl
  exact ⟨rfl, h.1, h.2.1⟩

/-- Claim C10: on the all-tasks-failed path `execute_workflow` returns
exactly the boolean produced by the store write that marks the workflow
failed, so the run reports a truthy outcome whenever that write succeeds
even though every task failed. -/
theorem c10_all_failed_return (env : Env) (tasks : List Task)
    (hne : tasks ≠ [])
    (hv : validate_email_tasks tasks = none)
    (hs : env.statusWriteOk .in_progress = true)
    (hk : (run_tasks env 1 tasks).1.countP (fun r => r.success) = 0) :
    (execute_workflow env (some tasks)).1 = PyRet.bool (env.statusWriteOk .failed) ∧
    (env.statusWriteOk .failed = true →
      ((execute_workflow env (some tasks)).1).truthy = true) := by
  obtain ⟨t, ts, rfl⟩ := List.exists_cons_of_ne_nil hne
  rw [execute_workflow_nonempty env t ts hv hs]
  have hn : 0 < (t :: ts).length := by simp
  rw [finish_execution_zero env _ _ hk hn]
  refine ⟨rfl, ?_⟩
  intro hw
  simp [fail_execution, hw, PyRet.truthy]

/-- Claim C10 witness: the single fax task fails, the `failed` status write
succeeds, and the run returns the truthy `True`. -/
theorem c10_all_failed_return_witness :
    (run_tasks baseEnv 1 [faxTask]).1.countP (fun r => r.success) = 0 ∧
    (execute_workflow baseEnv (some [faxTask])).1 = PyRet.bool true := by
  have h := c10_all_failed_return baseEnv [faxTask] (by decide) (by decide) rfl (by decide)
  exact ⟨by decide, h.1⟩

end AutoAgent
